import Mathlib

/-
Verification of the `flip_nvcv` video filter
(src/ffmpeg-gpu/libavfilter/vf_flip_nvcv.c).

The filter is straight-line adapter code: `config_props` sets up the output
hardware-frame context and creates the cvcuda flip operator, `filter_frame`
wraps the GPU frame buffers into NVCV tensor descriptors and submits one flip
operation, `uninit` destroys the operator.  The embedding below translates
that control flow into pure Lean functions.  Calls into the host pipeline and
the CUDA/NVCV libraries (allocation, pool initialisation, tensor wrapping,
submission, metadata copy, downstream forwarding) are fallible externals, so
their outcomes are inputs (an environment record per call site); each modelled
function returns a result record carrying the returned error code, the updated
filter context, and the externally visible effects (context pushes/pops, frames
freed, library calls made, the descriptors built, the frame forwarded).
-/

namespace FlipNvcv

/-- Software pixel formats that appear in the filter's supported-format table
plus a few unsupported ones, and the hardware format AV_PIX_FMT_CUDA.
`zeroRGB32`/`zeroBGR32` stand for AV_PIX_FMT_0RGB32/AV_PIX_FMT_0BGR32. -/
inductive AVPixelFormat where
  | rgb24
  | bgr24
  | zeroRGB32
  | zeroBGR32
  | rgba
  | bgra
  | yuv420p
  | nv12
  | gray8
  | cuda
deriving DecidableEq, Repr

/-- The `supported_formats` table of vf_flip_nvcv.c (lines 84-93). -/
def supported_formats : List AVPixelFormat :=
  [AVPixelFormat.rgb24, AVPixelFormat.bgr24,
   AVPixelFormat.zeroRGB32, AVPixelFormat.zeroBGR32,
   AVPixelFormat.rgba, AVPixelFormat.bgra]

/-- `format_is_supported` (lines 95-103): linear scan of the table. -/
def format_is_supported (fmt : AVPixelFormat) : Bool :=
  supported_formats.any (fun f => f == fmt)

/-- AVERROR(ENOMEM): negated POSIX errno 12. -/
def AVERROR_ENOMEM : Int := -12

/-- AVERROR(ENOSYS): negated POSIX errno 38, the "not implemented" error the
filter returns for unsupported formats. -/
def AVERROR_ENOSYS : Int := -38

/-- NVCV_SUCCESS status value of the NVCV library. -/
def NVCV_SUCCESS : Int := 0

/-- The two fields of an AVPixFmtDescriptor that filter_frame reads:
the AV_PIX_FMT_FLAG_RGB flag and comp[0].step (bytes between two horizontally
adjacent pixels). -/
structure PixFmtDescriptor where
  flag_rgb : Bool
  comp0_step : Int
deriving DecidableEq, Repr

/-- Modelled from the spec: `av_pix_fmt_desc_get` and the pixel-format
descriptor table live in the host library (libavutil/pixdesc.c), which is not
under src/.  Per the spec the supported set are packed "three/four-channel
byte formats" (RGB-flagged, 3- or 4-byte pixel step), while planar YUV and
grayscale formats are not RGB; AV_PIX_FMT_CUDA is an opaque hardware format. -/
def av_pix_fmt_desc_get : AVPixelFormat → PixFmtDescriptor
  | AVPixelFormat.rgb24 => { flag_rgb := true, comp0_step := 3 }
  | AVPixelFormat.bgr24 => { flag_rgb := true, comp0_step := 3 }
  | AVPixelFormat.zeroRGB32 => { flag_rgb := true, comp0_step := 4 }
  | AVPixelFormat.zeroBGR32 => { flag_rgb := true, comp0_step := 4 }
  | AVPixelFormat.rgba => { flag_rgb := true, comp0_step := 4 }
  | AVPixelFormat.bgra => { flag_rgb := true, comp0_step := 4 }
  | AVPixelFormat.yuv420p => { flag_rgb := false, comp0_step := 1 }
  | AVPixelFormat.nv12 => { flag_rgb := false, comp0_step := 1 }
  | AVPixelFormat.gray8 => { flag_rgb := false, comp0_step := 1 }
  | AVPixelFormat.cuda => { flag_rgb := false, comp0_step := 0 }

/-- The fields of an AVHWFramesContext that the filter reads/writes:
pixel format of the frames (AV_PIX_FMT_CUDA here), the software format of the
underlying buffers, and the frame dimensions. -/
structure HWFramesCtx where
  format : AVPixelFormat
  sw_format : AVPixelFormat
  width : Int
  height : Int
deriving DecidableEq, Repr

/-- The fields of an AVFrame that filter_frame reads: dimensions, the first
plane's line stride (linesize[0]) and base address (data[0]), and the
metadata properties (timestamps/side data, abstracted to one value) that
av_frame_copy_props transfers. -/
structure Frame where
  width : Int
  height : Int
  linesize0 : Int
  data0 : Nat
  props : Nat
deriving DecidableEq, Repr

/-- The NVCVTensorData record populated by filter_frame (lines 199-247):
rank-4 strided view with dtype U8, shape, strides, base pointer and layout. -/
structure NVCVTensorData where
  rank : Nat
  shape0 : Int
  shape1 : Int
  shape2 : Int
  shape3 : Int
  stride0 : Int
  stride1 : Int
  stride2 : Int
  stride3 : Int
  basePtr : Nat
  layout : String
deriving DecidableEq, Repr

/-- The FlipNvcvContext private data of the filter (lines 49-60), restricted
to the fields the modelled functions touch.  `layout` is the NVCVTensorLayout
produced by nvcvTensorLayoutMake, represented by its name string. -/
structure FlipNvcvContext where
  in_fmt : AVPixelFormat
  out_fmt : AVPixelFormat
  frame_w : Int
  frame_h : Int
  flip_code : Int
  layout : String
deriving DecidableEq, Repr

/-- Observable events of one filter_frame invocation, in program order:
CUDA context push/pop, successful output-buffer acquisition from the pool,
the two tensor-wrap calls find the submit call, the metadata-copy call, frame
frees and the downstream forward. -/
inductive Event where
  | push
  | pop
  | getBuffer
  | wrapIn
  | wrapOut
  | submit
  | copyProps
  | freeIn
  | freeOut
  | forward
deriving DecidableEq, Repr

/-- Outcomes of the external calls config_props makes: whether
av_hwframe_ctx_alloc returns a context, the return code of
av_hwframe_ctx_init, whether av_buffer_ref succeeds, and the NVCV status of
the first cvcudaFlipCreate invocation. -/
structure ConfigEnv where
  ctx_alloc_ok : Bool
  init_ret : Int
  ref_ok : Bool
  create_ret : Int
deriving DecidableEq, Repr

/-- Result of one config_props call: returned error code, updated filter
context, the hw-frames context installed on the outlink (none on failure),
and the effect counts (CUDA pushes/pops, cvcudaFlipCreate calls,
nvcvOperatorDestroy calls, flip submissions, output frames taken from the
pool, av_hwframe_ctx_init calls). -/
structure ConfigResult where
  ret : Int
  sctx : FlipNvcvContext
  out_ctx : Option HWFramesCtx
  pushes : Nat
  pops : Nat
  op_create_calls : Nat
  op_destroy_calls : Nat
  submit_calls : Nat
  frame_allocs : Nat
  pool_init_calls : Nat
deriving DecidableEq, Repr

/-- `config_props` (lines 117-181).  Control flow, in source order:
cuCtxPushCurrent; av_hwframe_ctx_alloc (NULL -> return AVERROR(ENOMEM));
set s->in_fmt / s->out_fmt from the input context's sw_format and fill the
output context's format/sw_format/width/height (lines 142-148); reject
unsupported in_fmt then out_fmt with AVERROR(ENOSYS) (lines 150-159); record
frame_w/frame_h; av_hwframe_ctx_init (negative -> unref and return it);
av_buffer_ref for the outlink (NULL -> return AVERROR(ENOMEM));
cuCtxPopCurrent; cvcudaFlipCreate and nvcvTensorLayoutMake("NHWC"); return 0.
Every early error return happens after the push and before the pop.
The CK_NVCV macro (line 75) textually substitutes its argument into both the
status test and the av_log argument list, so line 177 expands to
`if (cvcudaFlipCreate(...) != NVCV_SUCCESS) av_log(..., cvcudaFlipCreate(...), ...)`:
when the first create call returns a failing status it is invoked a second
time inside av_log, while config_props still returns 0.  Hence
op_create_calls is 1 when `create_ret` is NVCV_SUCCESS and 2 otherwise. -/
def config_props (s : FlipNvcvContext) (inCtx : HWFramesCtx) (env : ConfigEnv) :
    ConfigResult :=
  if env.ctx_alloc_ok = false then
    { ret := AVERROR_ENOMEM, sctx := s, out_ctx := none, pushes := 1, pops := 0,
      op_create_calls := 0, op_destroy_calls := 0, submit_calls := 0,
      frame_allocs := 0, pool_init_calls := 0 }
  else
    let s1 : FlipNvcvContext :=
      { s with in_fmt := inCtx.sw_format, out_fmt := inCtx.sw_format }
    let oc : HWFramesCtx :=
      { format := AVPixelFormat.cuda, sw_format := s1.out_fmt,
        width := inCtx.width, height := inCtx.height }
    if format_is_supported s1.in_fmt = false then
      { ret := AVERROR_ENOSYS, sctx := s1, out_ctx := none, pushes := 1,
        pops := 0, op_create_calls := 0, op_destroy_calls := 0,
        submit_calls := 0, frame_allocs := 0, pool_init_calls := 0 }
    else if format_is_supported s1.out_fmt = false then
      { ret := AVERROR_ENOSYS, sctx := s1, out_ctx := none, pushes := 1,
        pops := 0, op_create_calls := 0, op_destroy_calls := 0,
        submit_calls := 0, frame_allocs := 0, pool_init_calls := 0 }
    else
      let s2 : FlipNvcvContext :=
        { s1 with frame_w := inCtx.width, frame_h := inCtx.height }
      if env.init_ret < 0 then
        { ret := env.init_ret, sctx := s2, out_ctx := none, pushes := 1,
          pops := 0, op_create_calls := 0, op_destroy_calls := 0,
          submit_calls := 0, frame_allocs := 0, pool_init_calls := 1 }
      else if env.ref_ok = false then
        { ret := AVERROR_ENOMEM, sctx := s2, out_ctx := none, pushes := 1,
          pops := 0, op_create_calls := 0, op_destroy_calls := 0,
          submit_calls := 0, frame_allocs := 0, pool_init_calls := 1 }
      else
        { ret := 0, sctx := { s2 with layout := "NHWC" }, out_ctx := some oc,
          pushes := 1, pops := 1,
          op_create_calls := if env.create_ret = NVCV_SUCCESS then 1 else 2,
          op_destroy_calls := 0, submit_calls := 0, frame_allocs := 0,
          pool_init_calls := 1 }

/-- Outcomes of the external calls filter_frame makes: whether av_frame_alloc
returns a frame, the av_hwframe_get_buffer return code and the pool frame it
fills in, the NVCV statuses of the two nvcvTensorWrapDataConstruct calls and
of cvcudaFlipSubmit, the av_frame_copy_props return code, and the
ff_filter_frame (downstream forwarding) return code. -/
structure FilterEnv where
  out_alloc_ok : Bool
  get_buffer_ret : Int
  out_frame : Frame
  wrap_in_ret : Int
  wrap_out_ret : Int
  submit_ret : Int
  copy_props_ret : Int
  forward_ret : Int
deriving DecidableEq, Repr

/-- Result of one filter_frame call: return value, effects (pushes/pops,
which frames were freed, whether an output buffer was acquired, number of
tensor-wrap / submit / operator-create / operator-destroy call sites
executed), the two tensor descriptors built (none when the RGB branch is
skipped), the frame forwarded downstream (none on failure), and the event
trace in program order.  `wrap_calls` and `submit_calls` count the CK_NVCV
call sites reached (2 and 1 in the RGB branch); because CK_NVCV substitutes
its argument twice, a call site whose status is a failure re-invokes its
argument once more inside av_log - that extra macro re-evaluation is not
counted here, and none of the frame-path properties below depend on these
counters beyond their being zero when the RGB branch is skipped. -/
structure FilterResult where
  ret : Int
  pushes : Nat
  pops : Nat
  in_freed : Bool
  out_freed : Bool
  got_buffer : Bool
  wrap_calls : Nat
  submit_calls : Nat
  op_create_calls : Nat
  op_destroy_calls : Nat
  in_desc : Option NVCVTensorData
  out_desc : Option NVCVTensorData
  forwarded : Option Frame
  events : List Event
deriving DecidableEq, Repr

/-- `filter_frame` (lines 183-267).  Control flow, in source order:
av_frame_alloc (NULL -> ret = AVERROR(ENOMEM), goto fail);
cuCtxPushCurrent; av_hwframe_get_buffer (negative -> goto fail, with NO pop);
if the source descriptor has AV_PIX_FMT_FLAG_RGB, populate the two
NVCVTensorData records from the frames' height/width/linesize[0]/data[0] and
comp[0].step, then call nvcvTensorWrapDataConstruct twice and cvcudaFlipSubmit
once - each status is assigned to `ret` but CK_NVCV only logs it, so `ret` is
immediately overwritten; cuCtxPopCurrent; ret = av_frame_copy_props(out, in)
(negative -> goto fail); av_frame_free(&in); return ff_filter_frame(outlink,
out).  The fail label frees both frames and returns `ret`. -/
def filter_frame (s : FlipNvcvContext) (fin : Frame) (env : FilterEnv) :
    FilterResult :=
  let desc_src := av_pix_fmt_desc_get s.in_fmt
  let desc_dst := av_pix_fmt_desc_get s.out_fmt
  if env.out_alloc_ok = false then
    { ret := AVERROR_ENOMEM, pushes := 0, pops := 0, in_freed := true,
      out_freed := true, got_buffer := false, wrap_calls := 0,
      submit_calls := 0, op_create_calls := 0, op_destroy_calls := 0,
      in_desc := none, out_desc := none, forwarded := none,
      events := [Event.freeIn, Event.freeOut] }
  else
    if env.get_buffer_ret < 0 then
      { ret := env.get_buffer_ret, pushes := 1, pops := 0, in_freed := true,
        out_freed := true, got_buffer := false, wrap_calls := 0,
        submit_calls := 0, op_create_calls := 0, op_destroy_calls := 0,
        in_desc := none, out_desc := none, forwarded := none,
        events := [Event.push, Event.freeIn, Event.freeOut] }
    else
      let rgb := desc_src.flag_rgb
      let cv_in_data : Option NVCVTensorData :=
        if rgb then
          some { rank := 4, shape0 := 1, shape1 := fin.height,
                 shape2 := fin.width, shape3 := desc_src.comp0_step,
                 stride0 := fin.height * fin.linesize0,
                 stride1 := fin.linesize0, stride2 := desc_src.comp0_step,
                 stride3 := 1, basePtr := fin.data0, layout := s.layout }
        else none
      let cv_out_data : Option NVCVTensorData :=
        if rgb then
          some { rank := 4, shape0 := 1, shape1 := env.out_frame.height,
                 shape2 := env.out_frame.width, shape3 := desc_dst.comp0_step,
                 stride0 := env.out_frame.height * env.out_frame.linesize0,
                 stride1 := env.out_frame.linesize0,
                 stride2 := desc_dst.comp0_step, stride3 := 1,
                 basePtr := env.out_frame.data0, layout := s.layout }
        else none
      let wraps : Nat := if rgb then 2 else 0
      let submits : Nat := if rgb then 1 else 0
      let mid : List Event :=
        if rgb then [Event.wrapIn, Event.wrapOut, Event.submit] else []
      if env.copy_props_ret < 0 then
        { ret := env.copy_props_ret, pushes := 1, pops := 1, in_freed := true,
          out_freed := true, got_buffer := true, wrap_calls := wraps,
          submit_calls := submits, op_create_calls := 0,
          op_destroy_calls := 0, in_desc := cv_in_data,
          out_desc := cv_out_data, forwarded := none,
          events := [Event.push, Event.getBuffer] ++ mid ++
                    [Event.pop, Event.copyProps, Event.freeIn, Event.freeOut] }
      else
        let fo : Frame := { env.out_frame with props := fin.props }
        { ret := env.forward_ret, pushes := 1, pops := 1, in_freed := true,
          out_freed := false, got_buffer := true, wrap_calls := wraps,
          submit_calls := submits, op_create_calls := 0,
          op_destroy_calls := 0, in_desc := cv_in_data,
          out_desc := cv_out_data, forwarded := some fo,
          events := [Event.push, Event.getBuffer] ++ mid ++
                    [Event.pop, Event.copyProps, Event.freeIn, Event.forward] }

/-- Result of `uninit` (lines 269-273): it makes exactly one
nvcvOperatorDestroy call and creates nothing. -/
structure UninitResult where
  op_create_calls : Nat
  op_destroy_calls : Nat
deriving DecidableEq, Repr

/-- `uninit` (lines 269-273): one unconditional nvcvOperatorDestroy. -/
def uninit (_s : FlipNvcvContext) : UninitResult :=
  { op_create_calls := 0, op_destroy_calls := 1 }

/-- Total cvcudaFlipCreate calls over one lifecycle: one configure, a list of
filter_frame invocations, one uninit. -/
def lifecycle_creates (cfg : ConfigResult) (frames : List FilterResult)
    (fin : UninitResult) : Nat :=
  cfg.op_create_calls + (frames.map FilterResult.op_create_calls).sum +
    fin.op_create_calls

/-- Total nvcvOperatorDestroy calls over one lifecycle. -/
def lifecycle_destroys (cfg : ConfigResult) (frames : List FilterResult)
    (fin : UninitResult) : Nat :=
  cfg.op_destroy_calls + (frames.map FilterResult.op_destroy_calls).sum +
    fin.op_destroy_calls

/-- The 4-D strided tensor view exactly as the spec words it: shape
(1, height, width, channel-step-bytes), strides (height*linesize, linesize,
channel-step, 1), base pointer the frame's first data plane, layout NHWC.
Stated from the spec's words to be compared against the descriptors the
embedded filter_frame builds. -/
def specTensorView (f : Frame) (step : Int) : NVCVTensorData :=
  { rank := 4, shape0 := 1, shape1 := f.height, shape2 := f.width,
    shape3 := step, stride0 := f.height * f.linesize0,
    stride1 := f.linesize0, stride2 := step, stride3 := 1,
    basePtr := f.data0, layout := "NHWC" }

/-- Modelled from the spec: the flip transformation itself is implemented
inside the external cvcuda operator library (cvcudaFlipSubmit), whose code is
not part of this repository.  The spec defines its semantics: flip code 0
(vertical) sends row r to row height-1-r, same column; code 1 (horizontal)
sends column c to column width-1-c, same row; code -1 mirrors both axes.
An image is a function from row and column indices to pixel value. -/
def flip_op (code : Int) {h w : Nat} (img : Fin h → Fin w → Nat) :
    Fin h → Fin w → Nat :=
  fun r c =>
    if code = 0 then img r.rev c
    else if code = 1 then img r c.rev
    else img r.rev c.rev

/- Concrete fixtures used by witnesses and counterexamples. -/

/-- A fresh filter context before configuration. -/
def ctx0 : FlipNvcvContext :=
  { in_fmt := AVPixelFormat.rgb24, out_fmt := AVPixelFormat.rgb24,
    frame_w := 0, frame_h := 0, flip_code := 0, layout := "" }

/-- An input hw-frames context carrying planar YUV buffers (unsupported). -/
def yuvHWCtx : HWFramesCtx :=
  { format := AVPixelFormat.cuda, sw_format := AVPixelFormat.yuv420p,
    width := 1920, height := 1080 }

/-- An input hw-frames context carrying RGB24 buffers (supported). -/
def rgbHWCtx : HWFramesCtx :=
  { format := AVPixelFormat.cuda, sw_format := AVPixelFormat.rgb24,
    width := 64, height := 48 }

/-- A config environment in which every external call succeeds. -/
def cfgOkEnv : ConfigEnv :=
  { ctx_alloc_ok := true, init_ret := 0, ref_ok := true, create_ret := 0 }

/-- A config environment in which every host-pipeline call succeeds but the
first cvcudaFlipCreate invocation reports NVCV error status -1. -/
def cfgCreateFailEnv : ConfigEnv :=
  { ctx_alloc_ok := true, init_ret := 0, ref_ok := true, create_ret := -1 }

/-- The filter context produced by a successful configuration on RGB24. -/
def ctxConfigured : FlipNvcvContext := (config_props ctx0 rgbHWCtx cfgOkEnv).sctx

/-- A concrete incoming frame. -/
def frameIn : Frame :=
  { width := 64, height := 48, linesize0 := 256, data0 := 4096, props := 7 }

/-- The pool frame av_hwframe_get_buffer hands out. -/
def poolFrame : Frame :=
  { width := 64, height := 48, linesize0 := 256, data0 := 8192, props := 0 }

/-- A per-frame environment in which every external call succeeds. -/
def envOk : FilterEnv :=
  { out_alloc_ok := true, get_buffer_ret := 0, out_frame := poolFrame,
    wrap_in_ret := 0, wrap_out_ret := 0, submit_ret := 0,
    copy_props_ret := 0, forward_ret := 0 }

/-- A per-frame environment where av_hwframe_get_buffer fails. -/
def envGetBufFail : FilterEnv := { envOk with get_buffer_ret := AVERROR_ENOMEM }

/-- A per-frame environment where the first nvcvTensorWrapDataConstruct
returns the NVCV error status -2 and everything else succeeds. -/
def envWrapFail : FilterEnv := { envOk with wrap_in_ret := -2 }

/-- A per-frame environment where av_frame_copy_props fails with -22. -/
def envCopyFail : FilterEnv := { envOk with copy_props_ret := -22 }

/-- A per-frame environment where cvcudaFlipSubmit returns error status -5. -/
def envSubmitFail : FilterEnv := { envOk with submit_ret := -5 }

/-- A configured-looking context whose software format is planar YUV, whose
descriptor lacks the RGB flag. -/
def ctxYuv : FlipNvcvContext :=
  { ctxConfigured with in_fmt := AVPixelFormat.yuv420p,
                       out_fmt := AVPixelFormat.yuv420p }

/-- A concrete 2x3 test image. -/
def img0 : Fin 2 → Fin 3 → Nat := fun r c => r.val * 3 + c.val

/- Helper lemmas shared by several claim proofs. -/

/-- A successful config_props run reaches the tail of the function: the NHWC
layout is recorded and nvcvOperatorDestroy was never called. -/
theorem config_props_success_tail (s : FlipNvcvContext) (inCtx : HWFramesCtx)
    (env : ConfigEnv) (h : (config_props s inCtx env).ret = 0) :
    (config_props s inCtx env).sctx.layout = "NHWC" ∧
    (config_props s inCtx env).op_destroy_calls = 0 := by
  simp only [config_props] at h ⊢
  split_ifs at h ⊢ <;>
    simp_all [AVERROR_ENOMEM, AVERROR_ENOSYS]

/-- filter_frame never calls cvcudaFlipCreate or nvcvOperatorDestroy. -/
theorem filter_frame_no_op_lifecycle_calls (s : FlipNvcvContext) (fin : Frame)
    (env : FilterEnv) :
    (filter_frame s fin env).op_create_calls = 0 ∧
    (filter_frame s fin env).op_destroy_calls = 0 := by
  simp only [filter_frame]
  split_ifs <;> exact ⟨rfl, rfl⟩

/- Claim theorems. -/

/-- C1 counterexample: with frame allocation, buffer acquisition, metadata
copy and forwarding all succeeding but the first nvcvTensorWrapDataConstruct
failing with NVCV status -2, filter_frame does not return that error (it
returns the forwarding result 0) and does not release the output frame; so a
failure of tensor-descriptor construction does not cause both frames to be
released with that error propagated, contrary to the claim. -/
theorem C1_counterexample :
    (filter_frame ctxConfigured frameIn envWrapFail).ret ≠
      envWrapFail.wrap_in_ret ∧
    (filter_frame ctxConfigured frameIn envWrapFail).out_freed = false := by
  decide

/-- C1 (amended): in the per-frame path, a failure of the metadata copy
(av_frame_copy_props) causes both the input and the output frame to be
released and that error to be returned by filter_frame; failures of
nvcvTensorWrapDataConstruct or cvcudaFlipSubmit are only logged and have no
such effect. -/
theorem C1_copy_props_failure_releases_both (s : FlipNvcvContext)
    (fin : Frame) (env : FilterEnv) (h1 : env.out_alloc_ok = true)
    (h2 : 0 ≤ env.get_buffer_ret) (h3 : env.copy_props_ret < 0) :
    (filter_frame s fin env).ret = env.copy_props_ret ∧
    (filter_frame s fin env).in_freed = true ∧
    (filter_frame s fin env).out_freed = true ∧
    (filter_frame s fin env).forwarded = none := by
  simp [filter_frame, h1, not_lt.mpr h2, h3]

/-- Witness for C1: the amended theorem applied at a concrete run where
av_frame_copy_props returns -22. -/
theorem C1_witness :
    envCopyFail.out_alloc_ok = true ∧ 0 ≤ envCopyFail.get_buffer_ret ∧
    envCopyFail.copy_props_ret < 0 ∧
    ((filter_frame ctxConfigured frameIn envCopyFail).ret =
        envCopyFail.copy_props_ret ∧
     (filter_frame ctxConfigured frameIn envCopyFail).in_freed = true ∧
     (filter_frame ctxConfigured frameIn envCopyFail).out_freed = true ∧
     (filter_frame ctxConfigured frameIn envCopyFail).forwarded = none) :=
  ⟨by decide, by decide, by decide,
   C1_copy_props_failure_releases_both ctxConfigured frameIn envCopyFail
     (by decide) (by decide) (by decide)⟩

/-- C2: contrary to the claim, the CUDA context pushes are NOT matched by
pops on every exit path: config_props invoked on an unsupported (planar YUV)
input format returns AVERROR(ENOSYS) having pushed once and popped zero
times, and filter_frame with a failing av_hwframe_get_buffer likewise
returns having pushed once and popped zero times. -/
theorem C2_push_without_pop_on_error_paths :
    ((config_props ctx0 yuvHWCtx cfgOkEnv).pushes = 1 ∧
     (config_props ctx0 yuvHWCtx cfgOkEnv).pops = 0) ∧
    ((filter_frame ctxConfigured frameIn envGetBufFail).pushes = 1 ∧
     (filter_frame ctxConfigured frameIn envGetBufFail).pops = 0) := by
  decide

/-- C3: when the input software format is outside the supported set (and the
hw-frames-context allocation itself succeeds), config_props returns
AVERROR(ENOSYS) and performs no GPU work: no operator is created, nothing is
submitted, the frame pool is never initialised, no output frame is
allocated, and the outlink receives no hw-frames context. -/
theorem C3_unsupported_format_rejected (s : FlipNvcvContext)
    (inCtx : HWFramesCtx) (env : ConfigEnv)
    (hfmt : format_is_supported inCtx.sw_format = false)
    (halloc : env.ctx_alloc_ok = true) :
    (config_props s inCtx env).ret = AVERROR_ENOSYS ∧
    (config_props s inCtx env).op_create_calls = 0 ∧
    (config_props s inCtx env).submit_calls = 0 ∧
    (config_props s inCtx env).pool_init_calls = 0 ∧
    (config_props s inCtx env).frame_allocs = 0 ∧
    (config_props s inCtx env).out_ctx = none := by
  simp [config_props, halloc, hfmt]

/-- Witness for C3: planar YUV input is rejected. -/
theorem C3_witness :
    format_is_supported yuvHWCtx.sw_format = false ∧
    cfgOkEnv.ctx_alloc_ok = true ∧
    ((config_props ctx0 yuvHWCtx cfgOkEnv).ret = AVERROR_ENOSYS ∧
     (config_props ctx0 yuvHWCtx cfgOkEnv).op_create_calls = 0 ∧
     (config_props ctx0 yuvHWCtx cfgOkEnv).submit_calls = 0 ∧
     (config_props ctx0 yuvHWCtx cfgOkEnv).pool_init_calls = 0 ∧
     (config_props ctx0 yuvHWCtx cfgOkEnv).frame_allocs = 0 ∧
     (config_props ctx0 yuvHWCtx cfgOkEnv).out_ctx = none) :=
  ⟨by decide, by decide,
   C3_unsupported_format_rejected ctx0 yuvHWCtx cfgOkEnv (by decide)
     (by decide)⟩

/-- C4: for a supported input software format, a successful configuration
returns 0 and installs on the outlink a hardware-frame context whose width,
height and software pixel format equal those of the input context (and whose
frame format is AV_PIX_FMT_CUDA). -/
theorem C4_output_ctx_matches_input (s : FlipNvcvContext)
    (inCtx : HWFramesCtx) (env : ConfigEnv)
    (hfmt : format_is_supported inCtx.sw_format = true)
    (halloc : env.ctx_alloc_ok = true) (hinit : 0 ≤ env.init_ret)
    (href : env.ref_ok = true) :
    (config_props s inCtx env).ret = 0 ∧
    (config_props s inCtx env).out_ctx =
      some { format := AVPixelFormat.cuda, sw_format := inCtx.sw_format,
             width := inCtx.width, height := inCtx.height } := by
  simp [config_props, halloc, hfmt, not_lt.mpr hinit, href]

/-- Witness for C4: configuring on RGB24 at 64x48. -/
theorem C4_witness :
    format_is_supported rgbHWCtx.sw_format = true ∧
    cfgOkEnv.ctx_alloc_ok = true ∧ 0 ≤ cfgOkEnv.init_ret ∧
    cfgOkEnv.ref_ok = true ∧
    ((config_props ctx0 rgbHWCtx cfgOkEnv).ret = 0 ∧
     (config_props ctx0 rgbHWCtx cfgOkEnv).out_ctx =
       some { format := AVPixelFormat.cuda, sw_format := rgbHWCtx.sw_format,
              width := rgbHWCtx.width, height := rgbHWCtx.height }) :=
  ⟨by decide, by decide, by decide, by decide,
   C4_output_ctx_matches_input ctx0 rgbHWCtx cfgOkEnv (by decide) (by decide)
     (by decide) (by decide)⟩

/-- C5: the NVCV statuses of nvcvTensorWrapDataConstruct and cvcudaFlipSubmit
never determine filter_frame's return value: when frame allocation, buffer
acquisition and the metadata copy succeed, filter_frame returns the
downstream forwarding result, and replacing the three library statuses by
any values whatsoever leaves the entire result unchanged. -/
theorem C5_nvcv_status_never_returned (s : FlipNvcvContext) (fin : Frame)
    (env : FilterEnv) (a b c : Int) (h1 : env.out_alloc_ok = true)
    (h2 : 0 ≤ env.get_buffer_ret) (h3 : 0 ≤ env.copy_props_ret) :
    (filter_frame s fin env).ret = env.forward_ret ∧
    filter_frame s fin
        { env with wrap_in_ret := a, wrap_out_ret := b, submit_ret := c } =
      filter_frame s fin env := by
  refine ⟨?_, rfl⟩
  simp [filter_frame, h1, not_lt.mpr h2, not_lt.mpr h3]

/-- Witness for C5: a failed cvcudaFlipSubmit (status -5) does not change the
returned value, which is the forwarding result 0. -/
theorem C5_witness :
    envSubmitFail.out_alloc_ok = true ∧ 0 ≤ envSubmitFail.get_buffer_ret ∧
    0 ≤ envSubmitFail.copy_props_ret ∧
    ((filter_frame ctxConfigured frameIn envSubmitFail).ret =
        envSubmitFail.forward_ret ∧
     filter_frame ctxConfigured frameIn
         { envSubmitFail with wrap_in_ret := -2, wrap_out_ret := -3,
                              submit_ret := -5 } =
       filter_frame ctxConfigured frameIn envSubmitFail) :=
  ⟨by decide, by decide, by decide,
   C5_nvcv_status_never_returned ctxConfigured frameIn envSubmitFail
     (-2) (-3) (-5) (by decide) (by decide) (by decide)⟩

/-- C6: evaluation of the code at the failing input.  Contrary to the claim,
the operator is not always created exactly once at configuration time: the
CK_NVCV macro substitutes its argument twice, so when the first
cvcudaFlipCreate returns a failing status (here -1) it is re-invoked inside
av_log while config_props still returns 0.  Over a lifecycle of that
configure, one processed frame and one uninit, cvcudaFlipCreate is invoked
twice - though nvcvOperatorDestroy is still called exactly once, at uninit,
and frame invocations make neither call. -/
theorem C6_create_reinvoked_on_failing_status :
    (config_props ctx0 rgbHWCtx cfgCreateFailEnv).ret = 0 ∧
    (config_props ctx0 rgbHWCtx cfgCreateFailEnv).op_create_calls = 2 ∧
    lifecycle_creates (config_props ctx0 rgbHWCtx cfgCreateFailEnv)
      ([(ctxConfigured, frameIn, envOk)].map
        (fun t => filter_frame t.1 t.2.1 t.2.2))
      (uninit (config_props ctx0 rgbHWCtx cfgCreateFailEnv).sctx) = 2 ∧
    lifecycle_destroys (config_props ctx0 rgbHWCtx cfgCreateFailEnv)
      ([(ctxConfigured, frameIn, envOk)].map
        (fun t => filter_frame t.1 t.2.1 t.2.2))
      (uninit (config_props ctx0 rgbHWCtx cfgCreateFailEnv).sctx) = 1 := by
  decide

/-- C7: whenever the filter was successfully configured (so the stored layout
is NHWC), the input format is RGB-flagged, and the per-frame path acquires
its output buffer, the two tensor descriptors filter_frame builds are exactly
the spec's 4-D strided views of the input frame and of the pool output frame:
shape (1, height, width, channel-step), strides (height*linesize, linesize,
channel-step, 1), base pointer the frame's first data plane, layout NHWC. -/
theorem C7_tensor_descriptors_match_spec_view (s : FlipNvcvContext)
    (inCtx : HWFramesCtx) (cenv : ConfigEnv) (fin : Frame) (env : FilterEnv)
    (hret : (config_props s inCtx cenv).ret = 0)
    (hrgb : (av_pix_fmt_desc_get
        (config_props s inCtx cenv).sctx.in_fmt).flag_rgb = true)
    (h1 : env.out_alloc_ok = true) (h2 : 0 ≤ env.get_buffer_ret) :
    (filter_frame (config_props s inCtx cenv).sctx fin env).in_desc =
      some (specTensorView fin (av_pix_fmt_desc_get
        (config_props s inCtx cenv).sctx.in_fmt).comp0_step) ∧
    (filter_frame (config_props s inCtx cenv).sctx fin env).out_desc =
      some (specTensorView env.out_frame (av_pix_fmt_desc_get
        (config_props s inCtx cenv).sctx.out_fmt).comp0_step) := by
  obtain ⟨hlay, -⟩ := config_props_success_tail s inCtx cenv hret
  simp only [filter_frame, h1, not_lt.mpr h2, hrgb]
  split_ifs <;> simp_all [specTensorView]

/-- Witness for C7: descriptors of a concrete RGB24 frame after a concrete
successful configuration. -/
theorem C7_witness :
    (config_props ctx0 rgbHWCtx cfgOkEnv).ret = 0 ∧
    (av_pix_fmt_desc_get
        (config_props ctx0 rgbHWCtx cfgOkEnv).sctx.in_fmt).flag_rgb = true ∧
    envOk.out_alloc_ok = true ∧ 0 ≤ envOk.get_buffer_ret ∧
    ((filter_frame (config_props ctx0 rgbHWCtx cfgOkEnv).sctx frameIn
        envOk).in_desc =
      some (specTensorView frameIn (av_pix_fmt_desc_get
        (config_props ctx0 rgbHWCtx cfgOkEnv).sctx.in_fmt).comp0_step) ∧
     (filter_frame (config_props ctx0 rgbHWCtx cfgOkEnv).sctx frameIn
        envOk).out_desc =
      some (specTensorView envOk.out_frame (av_pix_fmt_desc_get
        (config_props ctx0 rgbHWCtx cfgOkEnv).sctx.out_fmt).comp0_step)) :=
  ⟨by decide, by decide, by decide, by decide,
   C7_tensor_descriptors_match_spec_view ctx0 rgbHWCtx cfgOkEnv frameIn envOk
     (by decide) (by decide) (by decide) (by decide)⟩

/-- C8: on every successfully processed frame the forwarded output frame
carries exactly the input frame's metadata properties, and in the event trace
the metadata copy happens before the input frame is freed. -/
theorem C8_metadata_copied_before_input_freed (s : FlipNvcvContext)
    (fin : Frame) (env : FilterEnv) (h1 : env.out_alloc_ok = true)
    (h2 : 0 ≤ env.get_buffer_ret) (h3 : 0 ≤ env.copy_props_ret) :
    (filter_frame s fin env).forwarded =
      some { env.out_frame with props := fin.props } ∧
    List.Sublist [Event.copyProps, Event.freeIn]
      (filter_frame s fin env).events := by
  cases hr : (av_pix_fmt_desc_get s.in_fmt).flag_rgb <;>
    refine ⟨?_, ?_⟩ <;>
      simp [filter_frame, h1, not_lt.mpr h2, not_lt.mpr h3, hr] <;> decide

/-- Witness for C8: a concrete fully successful run; the forwarded frame
carries props 7 copied from the input. -/
theorem C8_witness :
    envOk.out_alloc_ok = true ∧ 0 ≤ envOk.get_buffer_ret ∧
    0 ≤ envOk.copy_props_ret ∧
    ((filter_frame ctxConfigured frameIn envOk).forwarded =
       some { envOk.out_frame with props := frameIn.props } ∧
     List.Sublist [Event.copyProps, Event.freeIn]
       (filter_frame ctxConfigured frameIn envOk).events) :=
  ⟨by decide, by decide, by decide,
   C8_metadata_copied_before_input_freed ctxConfigured frameIn envOk
     (by decide) (by decide) (by decide)⟩

/-- C9: when the configured input format lacks the RGB flag but a frame still
reaches the per-frame path (with allocation, buffer acquisition and metadata
copy succeeding), filter_frame builds no tensor descriptors and submits
nothing, yet still takes an output frame from the pool, copies the input's
metadata onto it, frees the input, forwards the unprocessed output frame and
returns the forwarding result - no error is raised. -/
theorem C9_non_rgb_frames_pass_through (s : FlipNvcvContext) (fin : Frame)
    (env : FilterEnv)
    (hrgb : (av_pix_fmt_desc_get s.in_fmt).flag_rgb = false)
    (h1 : env.out_alloc_ok = true) (h2 : 0 ≤ env.get_buffer_ret)
    (h3 : 0 ≤ env.copy_props_ret) :
    (filter_frame s fin env).wrap_calls = 0 ∧
    (filter_frame s fin env).submit_calls = 0 ∧
    (filter_frame s fin env).in_desc = none ∧
    (filter_frame s fin env).out_desc = none ∧
    (filter_frame s fin env).got_buffer = true ∧
    (filter_frame s fin env).forwarded =
      some { env.out_frame with props := fin.props } ∧
    (filter_frame s fin env).in_freed = true ∧
    (filter_frame s fin env).ret = env.forward_ret := by
  simp [filter_frame, h1, not_lt.mpr h2, not_lt.mpr h3, hrgb]

/-- Witness for C9: a YUV-configured context passes a frame through
unprocessed and returns the forwarding result. -/
theorem C9_witness :
    (av_pix_fmt_desc_get ctxYuv.in_fmt).flag_rgb = false ∧
    envOk.out_alloc_ok = true ∧ 0 ≤ envOk.get_buffer_ret ∧
    0 ≤ envOk.copy_props_ret ∧
    ((filter_frame ctxYuv frameIn envOk).wrap_calls = 0 ∧
     (filter_frame ctxYuv frameIn envOk).submit_calls = 0 ∧
     (filter_frame ctxYuv frameIn envOk).in_desc = none ∧
     (filter_frame ctxYuv frameIn envOk).out_desc = none ∧
     (filter_frame ctxYuv frameIn envOk).got_buffer = true ∧
     (filter_frame ctxYuv frameIn envOk).forwarded =
       some { envOk.out_frame with props := frameIn.props } ∧
     (filter_frame ctxYuv frameIn envOk).in_freed = true ∧
     (filter_frame ctxYuv frameIn envOk).ret = envOk.forward_ret) :=
  ⟨by decide, by decide, by decide, by decide,
   C9_non_rgb_frames_pass_through ctxYuv frameIn envOk (by decide)
     (by decide) (by decide) (by decide)⟩

/-- C10: for each flip code in the option's domain (-1, 0 or 1), applying
the flip transformation twice returns the original image. -/
theorem C10_flip_involutive (code : Int) {h w : Nat}
    (hcode : code = -1 ∨ code = 0 ∨ code = 1)
    (img : Fin h → Fin w → Nat) :
    flip_op code (flip_op code img) = img := by
  funext r c
  rcases hcode with hc | hc | hc <;>
    simp [flip_op, hc, Fin.rev_rev]

/-- Witness for C10: double flip with code -1 restores a concrete 2x3
image. -/
theorem C10_witness :
    ((-1 : Int) = -1 ∨ (-1 : Int) = 0 ∨ (-1 : Int) = 1) ∧
    flip_op (-1) (flip_op (-1) img0) = img0 :=
  ⟨Or.inl rfl, C10_flip_involutive (-1) (Or.inl rfl) img0⟩

end FlipNvcv
